import Mathlib

/-!
Shallow embedding of the WhatsApp-inbox application (`app.py`): chat-id
normalization, the persistence model (conversations and messages), the
webhook reconciler, and the conversation-service operations, together with
theorems checking the specification's claims against this embedding.

Conventions of the embedding:
* machine timestamps (`datetime` values) are `Nat` seconds;
* SQL `NULL`-able columns are `Option`; SQLAlchemy's `filter_by(col=None)`
  compiles to `col IS NULL`, which is `Option` equality with `none`;
* each request handler is a function from the committed store (plus the
  request payload and the receipt time `now`) to the new committed store and
  the HTTP response; a handler that raises before commit returns the store
  unchanged, because the session is rolled back at request teardown;
* the gateway send is an oracle argument (`GwOutcome`), since it is an
  external HTTP call.
-/

namespace Inbox

/-- Python `a or b` on two optional strings, where `None` and `""` are falsy. -/
def pyOrOpt (a b : Option String) : Option String :=
  match a with
  | none => b
  | some s => if s = "" then b else some s

/-- Python `str.strip()` on a character list: drop whitespace from both ends. -/
def pyStripL (l : List Char) : List Char :=
  ((l.dropWhile Char.isWhitespace).reverse.dropWhile Char.isWhitespace).reverse

/-- Python `str.strip()` on strings. -/
def pyStrip (s : String) : String :=
  (pyStripL s.toList).asString

/-- Python `"".join(filter(str.isdigit, s))`, as a character list. -/
def digitsOf (s : String) : List Char :=
  s.toList.filter Char.isDigit

/-- Python `"@" in s` (single-character containment). -/
def hasAt (s : String) : Bool :=
  s.toList.contains '@'

/-- Embedding of `normalize_chat_id` from `app.py`. Failures model the
`ValueError`s raised by the source, carrying their messages. -/
def normalize_chat_id (raw_number : String) : Except String String :=
  if raw_number = "" then
    .error "El número de WhatsApp no puede estar vacío"
  else
    let trimmed := pyStrip raw_number
    if hasAt trimmed then .ok trimmed
    else
      let digits := (digitsOf trimmed).asString
      if digits = "" then
        .error "El número de WhatsApp debe contener al menos un dígito"
      else
        .ok (digits ++ "@c.us")

/-- Row of the `conversations` table. `contact_number` is `NOT NULL`, so it is
a plain `String`; `contact_name` is nullable. -/
structure Conversation where
  id : Nat
  contact_number : String
  contact_name : Option String
  created_at : Nat
  updated_at : Nat
deriving DecidableEq

/-- Row of the `messages` table; `external_id` is nullable. -/
structure Message where
  id : Nat
  conversation_id : Nat
  sender_type : String
  message_text : String
  sent_at : Nat
  external_id : Option String
deriving DecidableEq

/-- The committed persistence store, with the next surrogate ids the database
would assign. -/
structure Store where
  conversations : List Conversation
  messages : List Message
  nextConvId : Nat
  nextMsgId : Nat
deriving DecidableEq

def emptyStore : Store := ⟨[], [], 0, 0⟩

/-- Payload fragment `messageData.textMessageData`. -/
structure TextMessageData where
  textMessage : Option String
deriving DecidableEq

/-- Payload fragment `messageData.extendedTextMessageData`. -/
structure ExtendedTextMessageData where
  text : Option String
deriving DecidableEq

/-- Payload fragment `messageData`. -/
structure MessageData where
  chatId : Option String
  textMessageData : Option TextMessageData
  extendedTextMessageData : Option ExtendedTextMessageData
deriving DecidableEq

/-- Payload fragment `senderData`. -/
structure SenderData where
  chatId : Option String
  senderName : Option String
deriving DecidableEq

/-- A webhook JSON payload; absent keys are `none`. -/
structure Payload where
  typeWebhook : Option String
  senderData : Option SenderData
  messageData : Option MessageData
  idMessage : Option String
  timestamp : Option Nat
  status : Option String
deriving DecidableEq

def emptyTMD : TextMessageData := ⟨none⟩
def emptyETMD : ExtendedTextMessageData := ⟨none⟩
def emptyMD : MessageData := ⟨none, none, none⟩
def emptySD : SenderData := ⟨none, none⟩
def emptyPayload : Payload := ⟨none, none, none, none, none, none⟩

/-- An HTTP response: status code, the JSON `status` field, and the optional
`detail`/`error` field. -/
structure Response where
  code : Nat
  status : String
  detail : Option String
deriving DecidableEq

def ignoredNoHandlerResp : Response := ⟨200, "ignored", some "Evento no manejado"⟩
def noTextResp : Response := ⟨200, "ignored", some "Mensaje sin texto"⟩
def noDataOutResp : Response := ⟨200, "ignored", some "Mensaje saliente sin datos"⟩
def receivedResp : Response := ⟨200, "received", none⟩
def storedResp : Response := ⟨200, "stored", none⟩
def noIdResp : Response := ⟨200, "ignored", some "Sin id de mensaje"⟩
def unknownMsgResp : Response := ⟨200, "ignored", some "Mensaje desconocido"⟩

/-- Acknowledgment response of the status handler, echoing the event's status. -/
def ackResp (st : Option String) : Response := ⟨200, "acknowledged", st⟩

/-- The 500 response produced when the `NOT NULL` constraint on
`conversations.contact_number` fires at flush time and the error handler maps
the exception to a JSON error. -/
def integrityErrorResp : Response := ⟨500, "error", none⟩

/-- Model of `datetime.utcfromtimestamp(timestamp) if timestamp else
datetime.utcnow()`: by Python truthiness, a missing or zero timestamp falls
back to the receipt time. -/
def mkSentAt (timestamp : Option Nat) (now : Nat) : Nat :=
  match timestamp with
  | some t => if t = 0 then now else t
  | none => now

/-- `Conversation.query.filter_by(contact_number=chatId).first()`: the first
conversation whose `contact_number` equals the (possibly `NULL`) chat id.
Since `contact_number` is `NOT NULL`, a `none` chat id matches nothing. -/
def resolveConv (convs : List Conversation) (chatId : Option String) : Option Conversation :=
  convs.find? fun conv => some conv.contact_number == chatId

/-- In-place ORM update `conversation.updated_at = now`, keyed by primary key. -/
def bumpUpdated (convs : List Conversation) (cid : Nat) (now : Nat) : List Conversation :=
  convs.map fun c => if c.id = cid then { c with updated_at := now } else c

/-- In-place ORM update `existing_message.sent_at = t`, keyed by primary key. -/
def updateSentAt (msgs : List Message) (mid : Nat) (t : Nat) : List Message :=
  msgs.map fun m => if m.id = mid then { m with sent_at := t } else m

/-- The element of maximal `id`, modelling `order_by(Message.id.desc()).first()`. -/
def maxIdFold : List Message → Option Message
  | [] => none
  | m :: rest =>
    match maxIdFold rest with
    | none => some m
    | some b => if b.id < m.id then some m else some b

/-- The dedup lookup of `handle_outgoing_message`:
`Message.query.filter_by(external_id=eid, conversation_id=cid).order_by(Message.id.desc()).first()`. -/
def queryMessageDesc (msgs : List Message) (eid : Option String) (cid : Nat) : Option Message :=
  maxIdFold (msgs.filter fun m => m.conversation_id == cid && m.external_id == eid)

/-- The match set of the dedup lookup, for stating theorems. -/
def msgsWithExt (msgs : List Message) (cid : Nat) (eid : Option String) : List Message :=
  msgs.filter fun m => m.conversation_id == cid && m.external_id == eid

/-- The insert-message-and-bump-conversation tail shared by both branches of
`handle_incoming_message`: append the customer message, bump `updated_at`. -/
def incomingStore (s : Store) (cid : Nat) (txt : String) (external_id : Option String)
    (sent_at now : Nat) : Store :=
  { s with
      messages := s.messages ++
        [⟨s.nextMsgId, cid, "customer", txt, sent_at, external_id⟩],
      nextMsgId := s.nextMsgId + 1,
      conversations := bumpUpdated s.conversations cid now }

/-- Embedding of `handle_incoming_message` from `app.py`. -/
def handle_incoming_message (s : Store) (p : Payload) (now : Nat) : Store × Response :=
  let md := p.messageData.getD emptyMD
  let sd := p.senderData.getD emptySD
  let td := md.textMessageData.getD emptyTMD
  match td.textMessage with
  | none => (s, noTextResp)
  | some txt =>
    if txt = "" then (s, noTextResp)
    else
      let chat_id := sd.chatId
      let contact_name := pyOrOpt sd.senderName chat_id
      let external_id := p.idMessage
      let sent_at := mkSentAt p.timestamp now
      match resolveConv s.conversations chat_id with
      | some conv =>
          (incomingStore s conv.id txt external_id sent_at now, receivedResp)
      | none =>
          match chat_id with
          | none =>
              -- `Conversation(contact_number=None, ...)` violates the NOT NULL
              -- constraint at flush; the request becomes a 500 and the
              -- session rolls back, leaving the store unchanged.
              (s, integrityErrorResp)
          | some c =>
              (incomingStore
                { s with
                    conversations := s.conversations ++
                      [⟨s.nextConvId, c, contact_name, sent_at, sent_at⟩],
                    nextConvId := s.nextConvId + 1 }
                s.nextConvId txt external_id sent_at now,
               receivedResp)

/-- The dedup-then-store tail of `handle_outgoing_message`, after the
conversation has been resolved or created (`cid` is its id): look up the most
recent message with this `external_id` in this conversation; refresh its
`sent_at` if found, else insert a new agent message; bump `updated_at`. -/
def outgoingDedup (s₁ : Store) (cid : Nat) (txt : String) (external_id : Option String)
    (sent_at now : Nat) : Store × Response :=
  match queryMessageDesc s₁.messages external_id cid with
  | some existing =>
      ({ s₁ with
          messages := updateSentAt s₁.messages existing.id sent_at,
          conversations := bumpUpdated s₁.conversations cid now },
       storedResp)
  | none =>
      ({ s₁ with
          messages := s₁.messages ++
            [⟨s₁.nextMsgId, cid, "agent", txt, sent_at, external_id⟩],
          nextMsgId := s₁.nextMsgId + 1,
          conversations := bumpUpdated s₁.conversations cid now },
       storedResp)

/-- Body of `handle_outgoing_message` once a non-empty chat id `c` and text
`txt` have been extracted: resolve or create the conversation, then dedup. -/
def outgoingProceed (s : Store) (c txt : String) (external_id : Option String)
    (sent_at now : Nat) : Store × Response :=
  match resolveConv s.conversations (some c) with
  | some conv => outgoingDedup s conv.id txt external_id sent_at now
  | none =>
      outgoingDedup
        { s with
            conversations := s.conversations ++
              [⟨s.nextConvId, c, some c, sent_at, sent_at⟩],
            nextConvId := s.nextConvId + 1 }
        s.nextConvId txt external_id sent_at now

/-- Embedding of `handle_outgoing_message` from `app.py`. -/
def handle_outgoing_message (s : Store) (p : Payload) (now : Nat) : Store × Response :=
  let md := p.messageData.getD emptyMD
  let chat_id := md.chatId
  let message_text :=
    pyOrOpt (md.textMessageData.getD emptyTMD).textMessage
            (md.extendedTextMessageData.getD emptyETMD).text
  let external_id := p.idMessage
  let sent_at := mkSentAt p.timestamp now
  match chat_id, message_text with
  | some c, some txt =>
    if c = "" ∨ txt = "" then (s, noDataOutResp)
    else outgoingProceed s c txt external_id sent_at now
  | _, _ => (s, noDataOutResp)

/-- Embedding of `handle_outgoing_status` from `app.py`: a pure acknowledgment
that never writes to the store. -/
def handle_outgoing_status (s : Store) (p : Payload) : Store × Response :=
  match p.idMessage with
  | none => (s, noIdResp)
  | some eid =>
    if eid = "" then (s, noIdResp)
    else
      match s.messages.find? (fun m => m.external_id == some eid) with
      | none => (s, unknownMsgResp)
      | some _ => (s, ackResp p.status)

/-- Embedding of the `green_webhook` dispatcher. A `none` body models a
non-JSON request (`get_json(silent=True)` returning `None`, replaced by `{}`). -/
def green_webhook (s : Store) (body : Option Payload) (now : Nat) : Store × Response :=
  let payload := body.getD emptyPayload
  if payload.typeWebhook = some "incomingMessageReceived" then
    handle_incoming_message s payload now
  else if payload.typeWebhook = some "outgoingMessageReceived" then
    handle_outgoing_message s payload now
  else if payload.typeWebhook = some "outgoingMessageStatus" then
    handle_outgoing_status s payload
  else
    (s, ignoredNoHandlerResp)

/-- Outcome of the external `send_whatsapp_message` call: success carries the
optional `idMessage` of the gateway's JSON answer; `httpError` is
`requests.exceptions.HTTPError`; `exn` is any other exception (missing
credentials `RuntimeError`, network errors, timeouts). -/
inductive GwOutcome
  | ok (idMessage : Option String)
  | httpError (code : Nat)
  | exn
deriving DecidableEq

/-- Result of the `new_conversation` POST handler. -/
inductive NewConvResult
  | validationError (msg : String)
  | redirected (convId : Nat)
  | sendErrorHttp (code : Nat)
  | sendErrorOther
  | created (convId : Nat)
deriving DecidableEq

/-- Embedding of the POST branch of `new_conversation` from `app.py`. -/
def new_conversation_post (s : Store) (contact_number contact_name initial_message : String)
    (gw : GwOutcome) (now : Nat) : Store × NewConvResult :=
  let raw_number := pyStrip contact_number
  let cname := if pyStrip contact_name = "" then none else some (pyStrip contact_name)
  let initial := pyStrip initial_message
  if raw_number = "" then
    (s, .validationError "Debes indicar un número de WhatsApp")
  else
    match normalize_chat_id raw_number with
    | .error e => (s, .validationError e)
    | .ok chat_id =>
      match resolveConv s.conversations (some chat_id) with
      | some conv => (s, .redirected conv.id)
      | none =>
        let conv : Conversation := ⟨s.nextConvId, chat_id, cname, now, now⟩
        let s₁ : Store :=
          { s with conversations := s.conversations ++ [conv],
                   nextConvId := s.nextConvId + 1 }
        if initial = "" then
          (s₁, .created conv.id)
        else
          match gw with
          | .ok eid =>
              ({ s₁ with
                  messages := s₁.messages ++
                    [⟨s₁.nextMsgId, conv.id, "agent", initial, now, eid⟩],
                  nextMsgId := s₁.nextMsgId + 1 },
               .created conv.id)
          | .httpError code => (s, .sendErrorHttp code)
          | .exn => (s, .sendErrorOther)

/-- Result of the `conversation_detail` POST handler. -/
inductive DetailResult
  | notFound
  | badRequest
  | httpError (code : Nat)
  | serverError
  | posted
deriving DecidableEq

/-- Embedding of the POST branch of `conversation_detail` from `app.py`. -/
def conversation_detail_post (s : Store) (conversation_id : Nat) (form_message : String)
    (gw : GwOutcome) (now : Nat) : Store × DetailResult :=
  match s.conversations.find? (fun c => c.id == conversation_id) with
  | none => (s, .notFound)
  | some conv =>
    let message_text := pyStrip form_message
    if message_text = "" then (s, .badRequest)
    else
      match gw with
      | .httpError code => (s, .httpError code)
      | .exn => (s, .serverError)
      | .ok eid =>
          ({ s with
              messages := s.messages ++
                [⟨s.nextMsgId, conv.id, "agent", message_text, now, eid⟩],
              nextMsgId := s.nextMsgId + 1,
              conversations := bumpUpdated s.conversations conv.id now },
           .posted)

/-- A minimal `incomingMessageReceived` payload, for concrete instantiations. -/
def mkIncomingPayload (chat sender txt eid : Option String) (ts : Option Nat) : Payload :=
  ⟨some "incomingMessageReceived", some ⟨chat, sender⟩, some ⟨none, some ⟨txt⟩, none⟩,
    eid, ts, none⟩

/-- A minimal `outgoingMessageReceived` payload, for concrete instantiations. -/
def mkOutgoingPayload (chat txt eid : Option String) (ts : Option Nat) : Payload :=
  ⟨some "outgoingMessageReceived", none, some ⟨chat, some ⟨txt⟩, none⟩, eid, ts, none⟩

/-- A minimal `outgoingMessageStatus` payload, for concrete instantiations. -/
def mkStatusPayload (eid st : Option String) : Payload :=
  ⟨some "outgoingMessageStatus", none, none, eid, none, st⟩

/-- The store-uniqueness invariant of §3: at most one conversation row per
distinct `contact_number`. -/
def ConvInv (s : Store) : Prop :=
  ∀ n : String, (s.conversations.filter fun c => c.contact_number == n).length ≤ 1

/-! ### Lemmas about `pyStrip` and `normalize_chat_id` -/

theorem char_ws_not_digit {c : Char} (h : c.isWhitespace = true) : c.isDigit = false := by
  simp only [Char.isWhitespace, Bool.or_eq_true, decide_eq_true_eq] at h
  rcases h with ((h | h) | h) | h <;> subst h <;> decide

theorem char_digit_not_ws {c : Char} (h : c.isDigit = true) : c.isWhitespace = false := by
  cases hw : c.isWhitespace with
  | false => rfl
  | true => rw [char_ws_not_digit hw] at h; cases h

theorem pyStripL_eq (l : List Char) :
    pyStripL l = List.rdropWhile Char.isWhitespace (List.dropWhile Char.isWhitespace l) := rfl

theorem dropWhile_pyStripL (l : List Char) :
    (pyStripL l).dropWhile Char.isWhitespace = pyStripL l := by
  rcases List.rdropWhile_prefix Char.isWhitespace (l.dropWhile Char.isWhitespace)
    with ⟨t, ht⟩
  cases hm : List.rdropWhile Char.isWhitespace (l.dropWhile Char.isWhitespace) with
  | nil => rw [pyStripL_eq, hm]; rfl
  | cons a as =>
    have hd : l.dropWhile Char.isWhitespace = a :: (as ++ t) := by
      rw [← ht, hm]; rfl
    have h0 := List.head?_dropWhile_not Char.isWhitespace l
    rw [hd] at h0
    simp only [List.head?_cons] at h0
    rw [pyStripL_eq, hm, List.dropWhile_cons_of_neg (by simp [h0])]

theorem pyStripL_idem (l : List Char) : pyStripL (pyStripL l) = pyStripL l := by
  rw [pyStripL_eq (pyStripL l), dropWhile_pyStripL, pyStripL_eq l,
    List.rdropWhile_idempotent]

theorem pyStripL_eq_self (l : List Char) (h : ∀ c ∈ l, c.isWhitespace = false) :
    pyStripL l = l := by
  have h1 : List.dropWhile Char.isWhitespace l = l :=
    List.dropWhile_eq_self_iff.mpr (fun hl => by
      have := h _ (List.get_mem l 0 hl); simp_all)
  have h2 : List.rdropWhile Char.isWhitespace l = l :=
    List.rdropWhile_eq_self_iff.mpr (fun hl => by
      have := h _ (List.getLast_mem hl); simp_all)
  rw [pyStripL_eq, h1, h2]

theorem mem_pyStripL {c : Char} (hc : c.isWhitespace = false) {l : List Char}
    (h : c ∈ l) : c ∈ pyStripL l := by
  have h1 : c ∈ l.dropWhile Char.isWhitespace := by
    rcases List.mem_append.1
      (by rw [List.takeWhile_append_dropWhile]; exact h :
        c ∈ l.takeWhile Char.isWhitespace ++ l.dropWhile Char.isWhitespace) with h' | h'
    · exact absurd (List.mem_takeWhile_imp h') (by simp [hc])
    · exact h'
  set d := l.dropWhile Char.isWhitespace with hd
  have h2 : c ∈ d.reverse.dropWhile Char.isWhitespace := by
    rcases List.mem_append.1
      (by rw [List.takeWhile_append_dropWhile]; exact List.mem_reverse.2 h1 :
        c ∈ d.reverse.takeWhile Char.isWhitespace ++ d.reverse.dropWhile Char.isWhitespace)
      with h' | h'
    · exact absurd (List.mem_takeWhile_imp h') (by simp [hc])
    · exact h'
  rw [pyStripL_eq, List.rdropWhile]
  exact List.mem_reverse.2 h2

theorem pyStripL_subset {c : Char} {l : List Char} (h : c ∈ pyStripL l) : c ∈ l := by
  rw [pyStripL_eq, List.rdropWhile] at h
  have h1 := (List.dropWhile_suffix Char.isWhitespace).subset (List.mem_reverse.1 h)
  exact (List.dropWhile_suffix Char.isWhitespace).subset (List.mem_reverse.1 h1)

theorem filter_digit_pyStripL (l : List Char) :
    (pyStripL l).filter Char.isDigit = l.filter Char.isDigit := by
  have htake : ∀ m : List Char, (m.takeWhile Char.isWhitespace).filter Char.isDigit = [] :=
    fun m => List.filter_eq_nil_iff.2 fun c hc => by
      simp [char_ws_not_digit (List.mem_takeWhile_imp hc)]
  have hsplit : ∀ m : List Char, m.filter Char.isDigit =
      (m.dropWhile Char.isWhitespace).filter Char.isDigit := by
    intro m
    conv_lhs => rw [← List.takeWhile_append_dropWhile (p := Char.isWhitespace) (l := m)]
    rw [List.filter_append, htake m, List.nil_append]
  rw [pyStripL_eq]
  simp only [List.rdropWhile]
  rw [List.filter_reverse, ← hsplit, List.filter_reverse, List.reverse_reverse]
  exact (hsplit l).symm

theorem toList_asString (l : List Char) : (List.asString l).toList = l := rfl

theorem string_eq_of_toList {s t : String} (h : s.toList = t.toList) : s = t := by
  cases s; cases t; cases h; rfl

theorem pyStrip_idem (s : String) : pyStrip (pyStrip s) = pyStrip s := by
  unfold pyStrip
  rw [toList_asString, pyStripL_idem]

theorem hasAt_iff {s : String} : hasAt s = true ↔ '@' ∈ s.toList := by
  simp [hasAt, List.contains, List.elem_eq_mem]

theorem hasAt_pyStrip {s : String} (h : hasAt s = true) : hasAt (pyStrip s) = true := by
  rw [hasAt_iff] at h ⊢
  rw [pyStrip, toList_asString]
  exact mem_pyStripL (by decide) h

theorem hasAt_of_pyStrip {s : String} (h : hasAt (pyStrip s) = true) : hasAt s = true := by
  rw [hasAt_iff] at h ⊢
  rw [pyStrip, toList_asString] at h
  exact pyStripL_subset h

theorem digitsOf_pyStrip (s : String) : digitsOf (pyStrip s) = digitsOf s := by
  unfold digitsOf
  rw [pyStrip, toList_asString, filter_digit_pyStripL]

theorem pyStrip_ne_empty_of_hasAt {s : String} (h : hasAt (pyStrip s) = true) :
    pyStrip s ≠ "" := by
  intro he
  rw [he] at h
  exact absurd h (by decide)

/-- On a string with no whitespace characters, `pyStrip` is the identity. -/
theorem pyStrip_eq_self {s : String} (h : ∀ c ∈ s.toList, c.isWhitespace = false) :
    pyStrip s = s := by
  apply string_eq_of_toList
  rw [pyStrip, toList_asString, pyStripL_eq_self _ h]

theorem toList_append (a b : String) : (a ++ b).toList = a.toList ++ b.toList :=
  String.data_append a b

theorem asString_eq_empty {l : List Char} (h : List.asString l = "") : l = [] := by
  have := congrArg String.toList h
  rwa [toList_asString] at this

/-- Branch analysis of `normalize_chat_id` on the `"@"` path. -/
theorem normalize_of_hasAt {x : String} (hx : x ≠ "") (h : hasAt x = true) :
    normalize_chat_id x = .ok (pyStrip x) := by
  simp only [normalize_chat_id]
  rw [if_neg hx, if_pos (hasAt_pyStrip h)]

/-- Branch analysis of `normalize_chat_id` on the digits path. -/
theorem normalize_of_digits {x : String} (hx : x ≠ "") (hat : hasAt x = false)
    (hd : digitsOf x ≠ []) :
    normalize_chat_id x = .ok ((digitsOf x).asString ++ "@c.us") := by
  have hat' : hasAt (pyStrip x) = false := by
    cases hc : hasAt (pyStrip x) with
    | false => rfl
    | true => rw [hasAt_of_pyStrip hc] at hat; cases hat
  simp only [normalize_chat_id]
  rw [if_neg hx, if_neg (by simp [hat']), digitsOf_pyStrip,
    if_neg (fun he => hd (asString_eq_empty he))]

/-- Case split on a successful run of `normalize_chat_id`. -/
theorem normalize_ok_cases {x y : String} (h : normalize_chat_id x = .ok y) :
    (hasAt (pyStrip x) = true ∧ y = pyStrip x) ∨
    (hasAt (pyStrip x) = false ∧ digitsOf (pyStrip x) ≠ [] ∧
      y = (digitsOf (pyStrip x)).asString ++ "@c.us") := by
  simp only [normalize_chat_id] at h
  split at h
  · cases h
  · split at h
    · exact Or.inl ⟨by assumption, (Except.ok.inj h).symm⟩
    · split at h
      · cases h
      · refine Or.inr ⟨by simpa using (by assumption : ¬ hasAt (pyStrip x) = true),
          fun he => ?_, (Except.ok.inj h).symm⟩
        exact absurd (by rw [he]; rfl) (by assumption : ¬ (digitsOf (pyStrip x)).asString = "")

/-- C8: normalization is idempotent — whenever `normalize_chat_id x` succeeds
with value `y`, running it again on `y` succeeds with the same value. -/
theorem C8_normalize_idempotent (x y : String) (h : normalize_chat_id x = .ok y) :
    normalize_chat_id y = .ok y := by
  rcases normalize_ok_cases h with ⟨hat, rfl⟩ | ⟨hat, hdig, rfl⟩
  · rw [normalize_of_hasAt (pyStrip_ne_empty_of_hasAt hat) hat, pyStrip_idem]
  · have hylist : ((digitsOf (pyStrip x)).asString ++ "@c.us").toList =
        digitsOf (pyStrip x) ++ "@c.us".toList := by
      rw [toList_append, toList_asString]
    have hne : (digitsOf (pyStrip x)).asString ++ "@c.us" ≠ "" := by
      intro he
      have := congrArg String.toList he
      rw [hylist] at this
      simp at this
    have hat' : hasAt ((digitsOf (pyStrip x)).asString ++ "@c.us") = true :=
      hasAt_iff.2 (by rw [hylist]; exact List.mem_append.2 (Or.inr (by decide)))
    have hstr : pyStrip ((digitsOf (pyStrip x)).asString ++ "@c.us") =
        (digitsOf (pyStrip x)).asString ++ "@c.us" := by
      refine pyStrip_eq_self fun c hc => ?_
      rw [hylist] at hc
      rcases List.mem_append.1 hc with hc | hc
      · exact char_digit_not_ws (List.of_mem_filter hc)
      · simp only [show "@c.us".toList = ['@', 'c', '.', 'u', 's'] from rfl,
          List.mem_cons, List.not_mem_nil, or_false] at hc
        rcases hc with rfl | rfl | rfl | rfl | rfl <;> decide
    rw [normalize_of_hasAt hne hat', hstr]

/-- C8 witness: a concrete instantiation of idempotence at `x = "abc123"`. -/
theorem C8_normalize_idempotent_witness :
    normalize_chat_id "123@c.us" = .ok "123@c.us" :=
  C8_normalize_idempotent "abc123" "123@c.us" rfl

/-- C4 counterexample: on the input `" 123@c.us"`, which contains an `"@"`,
`normalize_chat_id` does not return the input unchanged — it strips the
leading whitespace first, refuting the claim's "returned unchanged". -/
theorem C4_normalize_cx :
    normalize_chat_id " 123@c.us" = .ok "123@c.us" ∧
    normalize_chat_id " 123@c.us" ≠ .ok " 123@c.us" := by
  refine ⟨rfl, fun h => ?_⟩
  rw [show normalize_chat_id " 123@c.us" = .ok "123@c.us" from rfl] at h
  exact absurd (Except.ok.inj h) (by decide)

/-- C4 (amended): normalization first strips leading/trailing whitespace; an
input containing `"@"` is returned stripped but otherwise unchanged; otherwise
the digits are extracted — if none remain (including the empty input) the
function fails, else it returns the digits with `"@c.us"` appended; with the
spec's four concrete examples. -/
theorem C4_normalize_characterization :
    (∀ x : String, x ≠ "" → hasAt x = true → normalize_chat_id x = .ok (pyStrip x)) ∧
    (∀ x : String, hasAt x = false → digitsOf x = [] →
      ∃ e, normalize_chat_id x = .error e) ∧
    (∀ x : String, x ≠ "" → hasAt x = false → digitsOf x ≠ [] →
      normalize_chat_id x = .ok ((digitsOf x).asString ++ "@c.us")) ∧
    normalize_chat_id "+52 55 1234 5678" = .ok "525512345678@c.us" ∧
    normalize_chat_id "123@c.us" = .ok "123@c.us" ∧
    (∃ e, normalize_chat_id "" = .error e) ∧
    (∃ e, normalize_chat_id "abc" = .error e) := by
  refine ⟨fun x hx h => normalize_of_hasAt hx h, fun x hat hd => ?_,
    fun x hx hat hd => normalize_of_digits hx hat hd, rfl, rfl, ⟨_, rfl⟩, ⟨_, rfl⟩⟩
  by_cases hx : x = ""
  · subst hx; exact ⟨_, rfl⟩
  · have hat' : hasAt (pyStrip x) = false := by
      cases hc : hasAt (pyStrip x) with
      | false => rfl
      | true => rw [hasAt_of_pyStrip hc] at hat; cases hat
    refine ⟨"El número de WhatsApp debe contener al menos un dígito", ?_⟩
    simp only [normalize_chat_id]
    rw [if_neg hx, if_neg (by simp [hat']), digitsOf_pyStrip,
      if_pos (by rw [hd]; rfl)]

/-- C4 amended-claim witness: instantiation at the counterexample input. -/
theorem C4_normalize_characterization_witness :
    normalize_chat_id " 123@c.us" = .ok "123@c.us" :=
  C4_normalize_characterization.1 " 123@c.us" (by decide) rfl

/-! ### Lemmas about the store primitives -/

theorem maxIdFold_eq_none {l : List Message} : maxIdFold l = none ↔ l = [] := by
  constructor
  · intro h
    cases l with
    | nil => rfl
    | cons m rest =>
      simp only [maxIdFold] at h
      rcases hr : maxIdFold rest with _ | b <;> rw [hr] at h
      · cases h
      · dsimp only at h; split at h <;> cases h
  · intro h; subst h; rfl

theorem maxIdFold_mem {l : List Message} {m : Message} (h : maxIdFold l = some m) :
    m ∈ l := by
  induction l with
  | nil => cases h
  | cons a rest ih =>
    simp only [maxIdFold] at h
    rcases hr : maxIdFold rest with _ | b <;> rw [hr] at h
    · cases h; exact List.mem_cons_self _ _
    · dsimp only at h
      split at h
      · cases h; exact List.mem_cons_self _ _
      · cases h; exact List.mem_cons_of_mem _ (ih hr)

theorem maxIdFold_max {l : List Message} :
    ∀ {m : Message}, maxIdFold l = some m → ∀ m' ∈ l, m'.id ≤ m.id := by
  induction l with
  | nil => intro m h; cases h
  | cons a rest ih =>
    intro m h m' hm'
    simp only [maxIdFold] at h
    rcases hr : maxIdFold rest with _ | b <;> rw [hr] at h
    · cases h
      rcases List.mem_cons.1 hm' with rfl | hm'
      · exact Nat.le_refl _
      · exact absurd hm' (by rw [maxIdFold_eq_none.1 hr]; exact List.not_mem_nil m')
    · dsimp only at h
      rcases List.mem_cons.1 hm' with rfl | hm'
      · split at h
        · cases h; exact Nat.le_refl _
        · cases h; exact Nat.le_of_not_lt (by assumption)
      · have hb := ih hr m' hm'
        split at h
        · cases h; exact Nat.le_trans hb (Nat.le_of_lt (by assumption))
        · cases h; exact hb

theorem queryMessageDesc_eq (msgs : List Message) (eid : Option String) (cid : Nat) :
    queryMessageDesc msgs eid cid = maxIdFold (msgsWithExt msgs cid eid) := rfl

theorem queryMessageDesc_none {msgs : List Message} {eid : Option String} {cid : Nat} :
    queryMessageDesc msgs eid cid = none ↔ msgsWithExt msgs cid eid = [] := by
  rw [queryMessageDesc_eq, maxIdFold_eq_none]

theorem queryMessageDesc_some {msgs : List Message} {eid : Option String} {cid : Nat}
    {m : Message} (h : queryMessageDesc msgs eid cid = some m) :
    m ∈ msgsWithExt msgs cid eid ∧ ∀ m' ∈ msgsWithExt msgs cid eid, m'.id ≤ m.id := by
  rw [queryMessageDesc_eq] at h
  exact ⟨maxIdFold_mem h, maxIdFold_max h⟩

theorem resolveConv_none {convs : List Conversation} {chatId : Option String} :
    resolveConv convs chatId = none ↔
      ∀ conv ∈ convs, some conv.contact_number ≠ chatId := by
  simp [resolveConv, List.find?_eq_none]

theorem resolveConv_some {convs : List Conversation} {chatId : Option String}
    {conv : Conversation} (h : resolveConv convs chatId = some conv) :
    conv ∈ convs ∧ some conv.contact_number = chatId := by
  refine ⟨List.mem_of_find?_eq_some h, ?_⟩
  have := List.find?_some h
  simpa using this

theorem resolveConv_none_chatId_none (convs : List Conversation) :
    resolveConv convs none = none :=
  resolveConv_none.2 fun _ _ => by simp

theorem resolveConv_append (l₁ l₂ : List Conversation) (chatId : Option String) :
    resolveConv (l₁ ++ l₂) chatId = (resolveConv l₁ chatId).or (resolveConv l₂ chatId) := by
  simp [resolveConv, List.find?_append]

theorem bumpUpdated_contact (c : Conversation) (cid now : Nat) :
    (if c.id = cid then { c with updated_at := now } else c).contact_number =
      c.contact_number := by
  split <;> rfl

theorem bumpUpdated_id (c : Conversation) (cid now : Nat) :
    (if c.id = cid then { c with updated_at := now } else c).id = c.id := by
  split <;> rfl

theorem resolveConv_bumpUpdated (convs : List Conversation) (cid now : Nat)
    (chatId : Option String) :
    resolveConv (bumpUpdated convs cid now) chatId =
      (resolveConv convs chatId).map
        fun c => if c.id = cid then { c with updated_at := now } else c := by
  unfold resolveConv bumpUpdated
  rw [List.find?_map]
  have hpred : ((fun conv : Conversation => some conv.contact_number == chatId) ∘
      fun c : Conversation => if c.id = cid then { c with updated_at := now } else c) =
      fun conv : Conversation => some conv.contact_number == chatId := by
    funext c
    by_cases h : c.id = cid <;> simp [Function.comp, h]
  rw [hpred]

theorem updateSentAt_of_ne {msgs : List Message} {mid : Nat} (t : Nat)
    (h : ∀ m ∈ msgs, m.id ≠ mid) : updateSentAt msgs mid t = msgs := by
  unfold updateSentAt
  rw [List.map_congr_left fun m hm => if_neg (h m hm)]
  exact List.map_id msgs

theorem updateSentAt_append (l₁ l₂ : List Message) (mid t : Nat) :
    updateSentAt (l₁ ++ l₂) mid t = updateSentAt l₁ mid t ++ updateSentAt l₂ mid t :=
  List.map_append _ _ _

theorem mkSentAt_of_ne {t : Nat} (h : t ≠ 0) (now : Nat) :
    mkSentAt (some t) now = t := by
  simp [mkSentAt, h]

/-! ### Evaluation lemmas for the webhook dispatcher and handlers -/

theorem green_webhook_incoming (s : Store) (p : Payload) (now : Nat)
    (h : p.typeWebhook = some "incomingMessageReceived") :
    green_webhook s (some p) now = handle_incoming_message s p now := by
  simp only [green_webhook, Option.getD_some]
  rw [if_pos h]

theorem green_webhook_outgoing (s : Store) (p : Payload) (now : Nat)
    (h : p.typeWebhook = some "outgoingMessageReceived") :
    green_webhook s (some p) now = handle_outgoing_message s p now := by
  simp only [green_webhook, Option.getD_some]
  rw [if_neg (by rw [h]; decide), if_pos h]

theorem green_webhook_status_eval (s : Store) (p : Payload) (now : Nat)
    (h : p.typeWebhook = some "outgoingMessageStatus") :
    green_webhook s (some p) now = handle_outgoing_status s p := by
  simp only [green_webhook, Option.getD_some]
  rw [if_neg (by rw [h]; decide), if_neg (by rw [h]; decide), if_pos h]

theorem green_webhook_other (s : Store) (p : Payload) (now : Nat)
    (h1 : p.typeWebhook ≠ some "incomingMessageReceived")
    (h2 : p.typeWebhook ≠ some "outgoingMessageReceived")
    (h3 : p.typeWebhook ≠ some "outgoingMessageStatus") :
    green_webhook s (some p) now = (s, ignoredNoHandlerResp) := by
  simp only [green_webhook, Option.getD_some]
  rw [if_neg h1, if_neg h2, if_neg h3]

theorem handle_outgoing_eval (s : Store) (p : Payload) (now : Nat) {c txt : String}
    (hc : (p.messageData.getD emptyMD).chatId = some c)
    (ht : pyOrOpt ((p.messageData.getD emptyMD).textMessageData.getD emptyTMD).textMessage
            ((p.messageData.getD emptyMD).extendedTextMessageData.getD emptyETMD).text =
          some txt)
    (hc' : c ≠ "") (ht' : txt ≠ "") :
    handle_outgoing_message s p now =
      outgoingProceed s c txt p.idMessage (mkSentAt p.timestamp now) now := by
  simp only [handle_outgoing_message, hc, ht]
  rw [if_neg (by simp [hc', ht'])]

theorem handle_outgoing_mk (s : Store) (now : Nat) (c txt : String) (eid : Option String)
    (t : Nat) (ht : txt ≠ "") (hc : c ≠ "") (htz : t ≠ 0) :
    handle_outgoing_message s (mkOutgoingPayload (some c) (some txt) eid (some t)) now =
      outgoingProceed s c txt eid t now := by
  rw [handle_outgoing_eval s (mkOutgoingPayload (some c) (some txt) eid (some t)) now
    rfl (by simp [mkOutgoingPayload, pyOrOpt, ht]) hc ht]
  rw [show (mkOutgoingPayload (some c) (some txt) eid (some t)).idMessage = eid from rfl,
    show (mkOutgoingPayload (some c) (some txt) eid (some t)).timestamp = some t from rfl,
    mkSentAt_of_ne htz]

theorem handle_outgoing_mk_ts (s : Store) (now : Nat) (c txt : String)
    (eid : Option String) (ts : Option Nat) (ht : txt ≠ "") (hc : c ≠ "") :
    handle_outgoing_message s (mkOutgoingPayload (some c) (some txt) eid ts) now =
      outgoingProceed s c txt eid (mkSentAt ts now) now := by
  rw [handle_outgoing_eval s (mkOutgoingPayload (some c) (some txt) eid ts) now
    rfl (by simp [mkOutgoingPayload, pyOrOpt, ht]) hc ht]
  rfl

theorem outgoingDedup_some (s₁ : Store) (cid : Nat) (txt : String) (eid : Option String)
    (t now : Nat) {m : Message} (h : queryMessageDesc s₁.messages eid cid = some m) :
    outgoingDedup s₁ cid txt eid t now =
      ({ s₁ with
          messages := updateSentAt s₁.messages m.id t,
          conversations := bumpUpdated s₁.conversations cid now }, storedResp) := by
  simp only [outgoingDedup, h]

theorem outgoingDedup_none (s₁ : Store) (cid : Nat) (txt : String) (eid : Option String)
    (t now : Nat) (h : queryMessageDesc s₁.messages eid cid = none) :
    outgoingDedup s₁ cid txt eid t now =
      ({ s₁ with
          messages := s₁.messages ++ [⟨s₁.nextMsgId, cid, "agent", txt, t, eid⟩],
          nextMsgId := s₁.nextMsgId + 1,
          conversations := bumpUpdated s₁.conversations cid now }, storedResp) := by
  simp only [outgoingDedup, h]

theorem outgoingProceed_resolved (s : Store) (c txt : String) (eid : Option String)
    (t now : Nat) {conv : Conversation}
    (h : resolveConv s.conversations (some c) = some conv) :
    outgoingProceed s c txt eid t now = outgoingDedup s conv.id txt eid t now := by
  simp only [outgoingProceed, h]

theorem outgoingProceed_created (s : Store) (c txt : String) (eid : Option String)
    (t now : Nat) (h : resolveConv s.conversations (some c) = none) :
    outgoingProceed s c txt eid t now =
      outgoingDedup
        { s with
            conversations := s.conversations ++ [⟨s.nextConvId, c, some c, t, t⟩],
            nextConvId := s.nextConvId + 1 }
        s.nextConvId txt eid t now := by
  simp only [outgoingProceed, h]

theorem msgsWithExt_append (l₁ l₂ : List Message) (cid : Nat) (eid : Option String) :
    msgsWithExt (l₁ ++ l₂) cid eid = msgsWithExt l₁ cid eid ++ msgsWithExt l₂ cid eid :=
  List.filter_append _ _

theorem msgsWithExt_nil_of_ext {msgs : List Message} {eid : Option String}
    (hext : ∀ m ∈ msgs, m.external_id ≠ eid) (cid : Nat) :
    msgsWithExt msgs cid eid = [] :=
  List.filter_eq_nil_iff.2 fun m hm => by
    simp only [Bool.and_eq_true, beq_iff_eq, not_and]
    exact fun _ => hext m hm

theorem msgsWithExt_singleton_pos {m₁ : Message} {cid : Nat} {eid : Option String}
    (hc : m₁.conversation_id = cid) (he : m₁.external_id = eid) :
    msgsWithExt [m₁] cid eid = [m₁] := by
  unfold msgsWithExt
  simp [List.filter_cons, hc, he]

theorem updateSentAt_singleton (m₁ : Message) (t : Nat) :
    updateSentAt [m₁] m₁.id t = [{ m₁ with sent_at := t }] := by
  simp [updateSentAt]

/-- Update branch of the outgoing reconciler: a matching message exists in the
resolved conversation, so its `sent_at` (for the maximal-id match) is
refreshed in place, no row is inserted, and the id counter is unchanged. -/
theorem outgoing_update_branch (s : Store) (c txt : String) (eid : Option String)
    (t now : Nat) {conv : Conversation}
    (hres : resolveConv s.conversations (some c) = some conv)
    (hne : msgsWithExt s.messages conv.id eid ≠ []) :
    ∃ m, m ∈ msgsWithExt s.messages conv.id eid ∧
      (∀ m' ∈ msgsWithExt s.messages conv.id eid, m'.id ≤ m.id) ∧
      (outgoingProceed s c txt eid t now).1.messages = updateSentAt s.messages m.id t ∧
      (outgoingProceed s c txt eid t now).1.messages.length = s.messages.length ∧
      (outgoingProceed s c txt eid t now).1.nextMsgId = s.nextMsgId := by
  rcases hq : queryMessageDesc s.messages eid conv.id with _ | m
  · exact absurd (queryMessageDesc_none.1 hq) hne
  · obtain ⟨hmem, hmax⟩ := queryMessageDesc_some hq
    rw [outgoingProceed_resolved s c txt eid t now hres,
      outgoingDedup_some s conv.id txt eid t now hq]
    exact ⟨m, hmem, hmax, rfl, by simp [updateSentAt], rfl⟩

/-- Insert branch of the outgoing reconciler with an already-resolved
conversation: no match, so exactly one new agent message is appended. -/
theorem outgoing_insert_branch (s : Store) (c txt : String) (eid : Option String)
    (t now : Nat) {conv : Conversation}
    (hres : resolveConv s.conversations (some c) = some conv)
    (hempty : msgsWithExt s.messages conv.id eid = []) :
    (outgoingProceed s c txt eid t now).1.messages =
      s.messages ++ [⟨s.nextMsgId, conv.id, "agent", txt, t, eid⟩] := by
  rw [outgoingProceed_resolved s c txt eid t now hres,
    outgoingDedup_none s conv.id txt eid t now (queryMessageDesc_none.2 hempty)]

/-- Insert branch of the outgoing reconciler with a freshly created
conversation: no prior message can reference its id, so one agent
message is appended with the new conversation id. -/
theorem outgoing_create_insert_branch (s : Store) (c txt : String) (eid : Option String)
    (t now : Nat)
    (hres : resolveConv s.conversations (some c) = none)
    (hcid : ∀ m ∈ s.messages, m.conversation_id < s.nextConvId) :
    (outgoingProceed s c txt eid t now).1.messages =
      s.messages ++ [⟨s.nextMsgId, s.nextConvId, "agent", txt, t, eid⟩] := by
  rw [outgoingProceed_created s c txt eid t now hres]
  rw [outgoingDedup_none _ _ _ _ _ _ (queryMessageDesc_none.2 (List.filter_eq_nil_iff.2
    fun m hm => by
      simp only [Bool.and_eq_true, beq_iff_eq, not_and]
      exact fun h2 => absurd h2 (Nat.ne_of_lt (hcid m hm))))]

/-- First outgoing event on a store with no message carrying this
`external_id`: one agent row is appended (for some conversation id `cid`), the
id counter advances, and afterwards the chat resolves to a conversation whose
id is that same `cid`. -/
theorem outgoing_first_event (s : Store) (c txt : String) (eid : Option String)
    (t now : Nat) (hext : ∀ m ∈ s.messages, m.external_id ≠ eid) :
    ∃ cid conv',
      (outgoingProceed s c txt eid t now).1.messages =
        s.messages ++ [⟨s.nextMsgId, cid, "agent", txt, t, eid⟩] ∧
      (outgoingProceed s c txt eid t now).1.nextMsgId = s.nextMsgId + 1 ∧
      resolveConv (outgoingProceed s c txt eid t now).1.conversations (some c) =
        some conv' ∧
      conv'.id = cid := by
  rcases hres : resolveConv s.conversations (some c) with _ | conv
  · have key := outgoingProceed_created s c txt eid t now hres
    have key2 := outgoingDedup_none
      { s with
          conversations := s.conversations ++ [⟨s.nextConvId, c, some c, t, t⟩],
          nextConvId := s.nextConvId + 1 }
      s.nextConvId txt eid t now
      (queryMessageDesc_none.2 (msgsWithExt_nil_of_ext hext _))
    rw [key2] at key
    refine ⟨s.nextConvId,
      { (⟨s.nextConvId, c, some c, t, t⟩ : Conversation) with updated_at := now },
      by rw [key], by rw [key], ?_, rfl⟩
    rw [key]
    show resolveConv
      (bumpUpdated (s.conversations ++ [⟨s.nextConvId, c, some c, t, t⟩])
        s.nextConvId now) (some c) = _
    rw [resolveConv_bumpUpdated, resolveConv_append, hres, Option.none_or,
      show resolveConv [⟨s.nextConvId, c, some c, t, t⟩] (some c) =
        some ⟨s.nextConvId, c, some c, t, t⟩ from by simp [resolveConv]]
    simp
  · have key := outgoingProceed_resolved s c txt eid t now hres
    have key2 := outgoingDedup_none s conv.id txt eid t now
      (queryMessageDesc_none.2 (msgsWithExt_nil_of_ext hext _))
    rw [key2] at key
    refine ⟨conv.id, { conv with updated_at := now }, by rw [key], by rw [key], ?_, rfl⟩
    rw [key]
    show resolveConv (bumpUpdated s.conversations conv.id now) (some c) = _
    rw [resolveConv_bumpUpdated, hres]
    simp

/-- Two successive outgoing events with the same (possibly null) `external_id`
to the same chat, starting from a store holding no message with that
`external_id`: the first inserts one agent row, the second only refreshes its
`sent_at`, so exactly one row is appended, keeping the first event's text and
taking the second event's timestamp. -/
theorem outgoing_two_events (s : Store) (now₁ now₂ : Nat) (c txt₁ txt₂ : String)
    (eid : Option String) (t₁ t₂ : Nat)
    (hid : ∀ m ∈ s.messages, m.id < s.nextMsgId)
    (hext : ∀ m ∈ s.messages, m.external_id ≠ eid) :
    ∃ cid,
      ((outgoingProceed (outgoingProceed s c txt₁ eid t₁ now₁).1
          c txt₂ eid t₂ now₂).1).messages =
        s.messages ++ [⟨s.nextMsgId, cid, "agent", txt₁, t₂, eid⟩] := by
  obtain ⟨cid, conv', hmsgs, hnext, hres2, hcid⟩ :=
    outgoing_first_event s c txt₁ eid t₁ now₁ hext
  have hmatch : msgsWithExt (outgoingProceed s c txt₁ eid t₁ now₁).1.messages
      conv'.id eid = [⟨s.nextMsgId, cid, "agent", txt₁, t₁, eid⟩] := by
    rw [hmsgs, msgsWithExt_append, msgsWithExt_nil_of_ext hext,
      msgsWithExt_singleton_pos (by rw [hcid]) rfl, List.nil_append]
  obtain ⟨m, hmem, hmax, hupd, hlen, hnm⟩ :=
    outgoing_update_branch (outgoingProceed s c txt₁ eid t₁ now₁).1 c txt₂ eid t₂ now₂
      hres2 (by rw [hmatch]; exact List.cons_ne_nil _ _)
  rw [hmatch] at hmem
  rcases List.mem_singleton.1 hmem with rfl
  refine ⟨cid, ?_⟩
  rw [hupd, hmsgs, updateSentAt_append,
    updateSentAt_of_ne t₂ (fun m hm => Nat.ne_of_lt (hid m hm)),
    show updateSentAt [⟨s.nextMsgId, cid, "agent", txt₁, t₁, eid⟩]
        (⟨s.nextMsgId, cid, "agent", txt₁, t₁, eid⟩ : Message).id t₂ =
      [⟨s.nextMsgId, cid, "agent", txt₁, t₂, eid⟩] from updateSentAt_singleton _ _]

theorem extFilter_nil {msgs : List Message} {eid : Option String}
    (hext : ∀ m ∈ msgs, m.external_id ≠ eid) :
    msgs.filter (fun m => m.external_id == eid) = [] :=
  List.filter_eq_nil_iff.2 fun m hm => by
    simp only [beq_iff_eq]
    exact hext m hm

/-- C1 counterexample: an outgoing echo with chat id, text, message id and
the (present) Unix timestamp `0`, hitting a store that already holds the
matching row, refreshes that row's `sent_at` to the receipt time `5` — not to
the event's timestamp — because the handler tests the timestamp for Python
truthiness, exactly as on the incoming path. No row is inserted, but the
claim's "updates the message's `sent_at` to the event's timestamp" is false
at this input. -/
theorem C1_outgoing_cx :
    (mkOutgoingPayload (some "1@c.us") (some "hola") (some "ABC")
      (some 0)).timestamp = some 0 ∧
    ((handle_outgoing_message
      (⟨[⟨0, "1@c.us", none, 1, 1⟩], [⟨0, 0, "agent", "hola", 1, some "ABC"⟩], 1, 1⟩ :
        Store)
      (mkOutgoingPayload (some "1@c.us") (some "hola") (some "ABC") (some 0))
      5).1.messages.map Message.sent_at) = [5] ∧
    (5 : Nat) ≠ 0 :=
  ⟨rfl, rfl, by decide⟩

/-- C1 (amended): for an outgoing event with chat id, text and message id —
if the resolved conversation already holds a message with that `external_id`,
only the maximal-id ("most recently inserted") match gets its `sent_at` set to
the event-derived timestamp (the event's Unix timestamp when present and
nonzero, else the receipt time) and nothing is inserted; if none matches,
exactly one agent message is inserted; and two successive outgoing events with
the same `idMessage` leave exactly one row carrying it, with the second
event's derived timestamp. -/
theorem C1_outgoing_dedup :
    (∀ (s : Store) (p : Payload) (now : Nat) (c txt mid : String)
        (conv : Conversation),
      (p.messageData.getD emptyMD).chatId = some c → c ≠ "" →
      pyOrOpt ((p.messageData.getD emptyMD).textMessageData.getD emptyTMD).textMessage
        ((p.messageData.getD emptyMD).extendedTextMessageData.getD emptyETMD).text =
          some txt → txt ≠ "" →
      p.idMessage = some mid →
      resolveConv s.conversations (some c) = some conv →
      (msgsWithExt s.messages conv.id (some mid) ≠ [] →
        ∃ m, m ∈ msgsWithExt s.messages conv.id (some mid) ∧
          (∀ m' ∈ msgsWithExt s.messages conv.id (some mid), m'.id ≤ m.id) ∧
          (handle_outgoing_message s p now).1.messages =
            updateSentAt s.messages m.id (mkSentAt p.timestamp now) ∧
          (handle_outgoing_message s p now).1.messages.length = s.messages.length ∧
          (handle_outgoing_message s p now).1.nextMsgId = s.nextMsgId) ∧
      (msgsWithExt s.messages conv.id (some mid) = [] →
        (handle_outgoing_message s p now).1.messages =
          s.messages ++
            [⟨s.nextMsgId, conv.id, "agent", txt, mkSentAt p.timestamp now,
              some mid⟩])) ∧
    (∀ (s : Store) (now₁ now₂ : Nat) (c txt₁ txt₂ mid : String)
        (ts₁ ts₂ : Option Nat),
      c ≠ "" → txt₁ ≠ "" → txt₂ ≠ "" →
      (∀ m ∈ s.messages, m.id < s.nextMsgId) →
      (∀ m ∈ s.messages, m.external_id ≠ some mid) →
      let s₂ := (handle_outgoing_message
        (handle_outgoing_message s
          (mkOutgoingPayload (some c) (some txt₁) (some mid) ts₁) now₁).1
        (mkOutgoingPayload (some c) (some txt₂) (some mid) ts₂) now₂).1
      ∃ cid,
        s₂.messages = s.messages ++
          [⟨s.nextMsgId, cid, "agent", txt₁, mkSentAt ts₂ now₂, some mid⟩] ∧
        (s₂.messages.filter fun m => m.external_id == some mid).length = 1 ∧
        ∀ m ∈ s₂.messages.filter fun m => m.external_id == some mid,
          m.sent_at = mkSentAt ts₂ now₂) := by
  constructor
  · intro s p now c txt mid conv hc hc' ht ht' hmid hres
    rw [handle_outgoing_eval s p now hc ht hc' ht', hmid]
    exact ⟨fun hne =>
        outgoing_update_branch s c txt (some mid) (mkSentAt p.timestamp now) now hres hne,
      fun hem =>
        outgoing_insert_branch s c txt (some mid) (mkSentAt p.timestamp now) now hres hem⟩
  · intro s now₁ now₂ c txt₁ txt₂ mid ts₁ ts₂ hc h1 h2 hid hext
    dsimp only
    rw [handle_outgoing_mk_ts s now₁ c txt₁ (some mid) ts₁ h1 hc,
      handle_outgoing_mk_ts _ now₂ c txt₂ (some mid) ts₂ h2 hc]
    obtain ⟨cid, hm⟩ := outgoing_two_events s now₁ now₂ c txt₁ txt₂ (some mid)
      (mkSentAt ts₁ now₁) (mkSentAt ts₂ now₂) hid hext
    refine ⟨cid, hm, ?_, ?_⟩
    · rw [hm, List.filter_append, extFilter_nil hext, List.nil_append]
      simp
    · intro m hmm
      rw [hm, List.filter_append, extFilter_nil hext, List.nil_append] at hmm
      simp only [List.filter_cons, List.filter_nil, beq_self_eq_true, if_true] at hmm
      rcases List.mem_singleton.1 hmm with rfl
      rfl

/-- C1 amended-claim witness: two concrete outgoing events with the same
message id on the empty store leave exactly one agent row carrying the second
event's derived timestamp. -/
theorem C1_outgoing_dedup_witness :
    ∃ cid,
      (handle_outgoing_message
        (handle_outgoing_message emptyStore
          (mkOutgoingPayload (some "1@c.us") (some "hola") (some "ABC") (some 10)) 3).1
        (mkOutgoingPayload (some "1@c.us") (some "hola") (some "ABC") (some 20)) 4).1.messages =
        emptyStore.messages ++
          [⟨emptyStore.nextMsgId, cid, "agent", "hola", mkSentAt (some 20) 4,
            some "ABC"⟩] ∧
      ((handle_outgoing_message
        (handle_outgoing_message emptyStore
          (mkOutgoingPayload (some "1@c.us") (some "hola") (some "ABC") (some 10)) 3).1
        (mkOutgoingPayload (some "1@c.us") (some "hola") (some "ABC") (some 20)) 4).1.messages.filter
          fun m => m.external_id == some "ABC").length = 1 ∧
      ∀ m ∈ (handle_outgoing_message
        (handle_outgoing_message emptyStore
          (mkOutgoingPayload (some "1@c.us") (some "hola") (some "ABC") (some 10)) 3).1
        (mkOutgoingPayload (some "1@c.us") (some "hola") (some "ABC") (some 20)) 4).1.messages.filter
          fun m => m.external_id == some "ABC", m.sent_at = mkSentAt (some 20) 4 :=
  C1_outgoing_dedup.2 emptyStore 3 4 "1@c.us" "hola" "hola" "ABC" (some 10) (some 20)
    (by decide) (by decide) (by decide)
    (fun m hm => absurd hm (List.not_mem_nil m))
    (fun m hm => absurd hm (List.not_mem_nil m))

/-- C9: for an outgoing event without `idMessage`, the dedup lookup matches on
a null `external_id` (`IS NULL`), so if the resolved conversation already has
a null-id message, only the most recent one's `sent_at` is refreshed and no
row is inserted; two successive distinct outgoing texts without message ids
leave exactly one stored message, keeping the first event's text. -/
theorem C9_null_external_dedup :
    (∀ (s : Store) (p : Payload) (now : Nat) (c txt : String) (conv : Conversation),
      (p.messageData.getD emptyMD).chatId = some c → c ≠ "" →
      pyOrOpt ((p.messageData.getD emptyMD).textMessageData.getD emptyTMD).textMessage
        ((p.messageData.getD emptyMD).extendedTextMessageData.getD emptyETMD).text =
          some txt → txt ≠ "" →
      p.idMessage = none →
      resolveConv s.conversations (some c) = some conv →
      msgsWithExt s.messages conv.id none ≠ [] →
      ∃ m, m ∈ msgsWithExt s.messages conv.id none ∧
        (∀ m' ∈ msgsWithExt s.messages conv.id none, m'.id ≤ m.id) ∧
        (handle_outgoing_message s p now).1.messages =
          updateSentAt s.messages m.id (mkSentAt p.timestamp now) ∧
        (handle_outgoing_message s p now).1.messages.length = s.messages.length ∧
        (handle_outgoing_message s p now).1.nextMsgId = s.nextMsgId) ∧
    (∀ (s : Store) (now₁ now₂ : Nat) (c txt₁ txt₂ : String) (t₁ t₂ : Nat),
      c ≠ "" → txt₁ ≠ "" → txt₂ ≠ "" → txt₁ ≠ txt₂ → t₁ ≠ 0 → t₂ ≠ 0 →
      (∀ m ∈ s.messages, m.id < s.nextMsgId) →
      (∀ m ∈ s.messages, m.external_id ≠ none) →
      let s₂ := (handle_outgoing_message
        (handle_outgoing_message s
          (mkOutgoingPayload (some c) (some txt₁) none (some t₁)) now₁).1
        (mkOutgoingPayload (some c) (some txt₂) none (some t₂)) now₂).1
      ∃ cid,
        s₂.messages = s.messages ++ [⟨s.nextMsgId, cid, "agent", txt₁, t₂, none⟩] ∧
        (s₂.messages.filter fun m => m.external_id == (none : Option String)).length = 1 ∧
        ∀ m ∈ s₂.messages.filter fun m => m.external_id == (none : Option String),
          m.message_text = txt₁ ∧ m.sent_at = t₂) := by
  constructor
  · intro s p now c txt conv hc hc' ht ht' hmid hres hne
    rw [handle_outgoing_eval s p now hc ht hc' ht', hmid]
    exact outgoing_update_branch s c txt none (mkSentAt p.timestamp now) now hres hne
  · intro s now₁ now₂ c txt₁ txt₂ t₁ t₂ hc h1 h2 hd ht1 ht2 hid hext
    dsimp only
    rw [handle_outgoing_mk s now₁ c txt₁ none t₁ h1 hc ht1,
      handle_outgoing_mk _ now₂ c txt₂ none t₂ h2 hc ht2]
    obtain ⟨cid, hm⟩ :=
      outgoing_two_events s now₁ now₂ c txt₁ txt₂ none t₁ t₂ hid hext
    refine ⟨cid, hm, ?_, ?_⟩
    · rw [hm, List.filter_append, extFilter_nil hext, List.nil_append]
      simp
    · intro m hmm
      rw [hm, List.filter_append, extFilter_nil hext, List.nil_append] at hmm
      simp only [List.filter_cons, List.filter_nil, beq_self_eq_true, if_true] at hmm
      rcases List.mem_singleton.1 hmm with rfl
      exact ⟨rfl, rfl⟩

/-- C9 witness: two concrete outgoing events without message ids on the empty
store leave exactly one row, keeping the first text. -/
theorem C9_null_external_dedup_witness :
    ∃ cid,
      (handle_outgoing_message
        (handle_outgoing_message emptyStore
          (mkOutgoingPayload (some "1@c.us") (some "uno") none (some 10)) 3).1
        (mkOutgoingPayload (some "1@c.us") (some "dos") none (some 20)) 4).1.messages =
        emptyStore.messages ++ [⟨emptyStore.nextMsgId, cid, "agent", "uno", 20, none⟩] ∧
      ((handle_outgoing_message
        (handle_outgoing_message emptyStore
          (mkOutgoingPayload (some "1@c.us") (some "uno") none (some 10)) 3).1
        (mkOutgoingPayload (some "1@c.us") (some "dos") none (some 20)) 4).1.messages.filter
          fun m => m.external_id == (none : Option String)).length = 1 ∧
      ∀ m ∈ (handle_outgoing_message
        (handle_outgoing_message emptyStore
          (mkOutgoingPayload (some "1@c.us") (some "uno") none (some 10)) 3).1
        (mkOutgoingPayload (some "1@c.us") (some "dos") none (some 20)) 4).1.messages.filter
          fun m => m.external_id == (none : Option String),
        m.message_text = "uno" ∧ m.sent_at = 20 :=
  C9_null_external_dedup.2 emptyStore 3 4 "1@c.us" "uno" "dos" 10 20
    (by decide) (by decide) (by decide) (by decide) (by decide) (by decide)
    (fun m hm => absurd hm (List.not_mem_nil m))
    (fun m hm => absurd hm (List.not_mem_nil m))

/-! ### Incoming-handler branch lemmas, C5 and C10 -/

theorem handle_incoming_resolved (s : Store) (p : Payload) (now : Nat) {txt : String}
    {conv : Conversation}
    (ht : ((p.messageData.getD emptyMD).textMessageData.getD emptyTMD).textMessage =
      some txt)
    (ht' : txt ≠ "")
    (hres : resolveConv s.conversations (p.senderData.getD emptySD).chatId = some conv) :
    handle_incoming_message s p now =
      (incomingStore s conv.id txt p.idMessage (mkSentAt p.timestamp now) now,
        receivedResp) := by
  simp only [handle_incoming_message, ht, hres]
  rw [if_neg ht']

theorem handle_incoming_created (s : Store) (p : Payload) (now : Nat) {txt c : String}
    (ht : ((p.messageData.getD emptyMD).textMessageData.getD emptyTMD).textMessage =
      some txt)
    (ht' : txt ≠ "")
    (hchat : (p.senderData.getD emptySD).chatId = some c)
    (hres : resolveConv s.conversations (some c) = none) :
    handle_incoming_message s p now =
      (incomingStore
        { s with
            conversations := s.conversations ++
              [⟨s.nextConvId, c,
                pyOrOpt (p.senderData.getD emptySD).senderName (some c),
                mkSentAt p.timestamp now, mkSentAt p.timestamp now⟩],
            nextConvId := s.nextConvId + 1 }
        s.nextConvId txt p.idMessage (mkSentAt p.timestamp now) now,
        receivedResp) := by
  simp only [handle_incoming_message, ht, hchat, hres]
  rw [if_neg ht']

theorem handle_incoming_nullchat (s : Store) (p : Payload) (now : Nat) {txt : String}
    (ht : ((p.messageData.getD emptyMD).textMessageData.getD emptyTMD).textMessage =
      some txt)
    (ht' : txt ≠ "")
    (hchat : (p.senderData.getD emptySD).chatId = none) :
    handle_incoming_message s p now = (s, integrityErrorResp) := by
  simp only [handle_incoming_message, ht, hchat, resolveConv_none_chatId_none]
  rw [if_neg ht']

theorem mem_bumpUpdated_self {convs : List Conversation} {conv : Conversation}
    (h : conv ∈ convs) (now : Nat) :
    { conv with updated_at := now } ∈ bumpUpdated convs conv.id now := by
  unfold bumpUpdated
  have hmem := List.mem_map_of_mem
    (f := fun c => if c.id = conv.id then { c with updated_at := now } else c) h
  simpa using hmem

/-- C5 counterexample: an incoming event whose payload carries the (present)
Unix timestamp `0` is stored with `sent_at` equal to the receipt time `5`,
not the event's timestamp — the code tests the timestamp for Python
truthiness, not for presence. -/
theorem C5_timestamp_zero_cx :
    (mkIncomingPayload (some "1@c.us") (some "Ana") (some "hola") (some "m1")
      (some 0)).timestamp = some 0 ∧
    ((handle_incoming_message emptyStore
      (mkIncomingPayload (some "1@c.us") (some "Ana") (some "hola") (some "m1")
        (some 0)) 5).1.messages.map Message.sent_at) = [5] ∧
    (5 : Nat) ≠ 0 :=
  ⟨rfl, rfl, by decide⟩

/-- C5 (amended): for every stored incoming event, the new message's
`sent_at` is the event's Unix timestamp when present and nonzero (receipt
time otherwise, since the code tests Python truthiness), while the
conversation's `updated_at` is always set to the receipt time. -/
theorem C5_sent_at_receipt_split :
    ∀ (s : Store) (p : Payload) (now : Nat) (txt c : String),
      ((p.messageData.getD emptyMD).textMessageData.getD emptyTMD).textMessage =
        some txt →
      txt ≠ "" →
      (p.senderData.getD emptySD).chatId = some c →
      ∃ m, (handle_incoming_message s p now).1.messages = s.messages ++ [m] ∧
        m.sender_type = "customer" ∧
        m.message_text = txt ∧
        m.sent_at = mkSentAt p.timestamp now ∧
        (∀ t, p.timestamp = some t → t ≠ 0 → m.sent_at = t) ∧
        ((p.timestamp = none ∨ p.timestamp = some 0) → m.sent_at = now) ∧
        ∃ conv' ∈ (handle_incoming_message s p now).1.conversations,
          conv'.contact_number = c ∧ conv'.updated_at = now := by
  intro s p now txt c ht ht' hchat
  rcases hres : resolveConv s.conversations (some c) with _ | conv
  · rw [handle_incoming_created s p now ht ht' hchat hres]
    refine ⟨_, rfl, rfl, rfl, rfl, fun t hts htz => by rw [hts, mkSentAt_of_ne htz],
      fun hts => by rcases hts with hts | hts <;> rw [hts] <;> simp [mkSentAt], ?_⟩
    refine ⟨{ (⟨s.nextConvId, c,
        pyOrOpt (p.senderData.getD emptySD).senderName (some c),
        mkSentAt p.timestamp now, mkSentAt p.timestamp now⟩ : Conversation) with
        updated_at := now }, ?_, rfl, rfl⟩
    exact mem_bumpUpdated_self (List.mem_append.2 (Or.inr (List.mem_singleton.2 rfl))) now
  · rw [handle_incoming_resolved s p now ht ht' (by rw [hchat]; exact hres)]
    obtain ⟨hmem, hcontact⟩ := resolveConv_some hres
    refine ⟨_, rfl, rfl, rfl, rfl, fun t hts htz => by rw [hts, mkSentAt_of_ne htz],
      fun hts => by rcases hts with hts | hts <;> rw [hts] <;> simp [mkSentAt], ?_⟩
    exact ⟨{ conv with updated_at := now }, mem_bumpUpdated_self hmem now,
      Option.some.inj hcontact, rfl⟩

/-- C5 amended-claim witness: a concrete incoming event with nonzero
timestamp 7, received at time 5. -/
theorem C5_sent_at_receipt_split_witness :
    ∃ m, (handle_incoming_message emptyStore
        (mkIncomingPayload (some "1@c.us") (some "Ana") (some "hola") (some "m1")
          (some 7)) 5).1.messages = emptyStore.messages ++ [m] ∧
      m.sender_type = "customer" ∧
      m.message_text = "hola" ∧
      m.sent_at = mkSentAt (mkIncomingPayload (some "1@c.us") (some "Ana") (some "hola")
        (some "m1") (some 7)).timestamp 5 ∧
      (∀ t, (mkIncomingPayload (some "1@c.us") (some "Ana") (some "hola") (some "m1")
        (some 7)).timestamp = some t → t ≠ 0 → m.sent_at = t) ∧
      ((mkIncomingPayload (some "1@c.us") (some "Ana") (some "hola") (some "m1")
        (some 7)).timestamp = none ∨
       (mkIncomingPayload (some "1@c.us") (some "Ana") (some "hola") (some "m1")
        (some 7)).timestamp = some 0 → m.sent_at = 5) ∧
      ∃ conv' ∈ (handle_incoming_message emptyStore
        (mkIncomingPayload (some "1@c.us") (some "Ana") (some "hola") (some "m1")
          (some 7)) 5).1.conversations,
        conv'.contact_number = "1@c.us" ∧ conv'.updated_at = 5 :=
  C5_sent_at_receipt_split emptyStore
    (mkIncomingPayload (some "1@c.us") (some "Ana") (some "hola") (some "m1") (some 7))
    5 "hola" "1@c.us" rfl (by decide) rfl

/-- C10: an incoming event with non-empty text but no `senderData.chatId`
matches no conversation (the lookup is `IS NULL` over a `NOT NULL` column),
the handler takes no ignore branch, the insert violates the `NOT NULL`
constraint, and the request fails 500 with the store unchanged. -/
theorem C10_null_chat_integrity_error :
    ∀ (s : Store) (p : Payload) (now : Nat) (txt : String),
      p.typeWebhook = some "incomingMessageReceived" →
      ((p.messageData.getD emptyMD).textMessageData.getD emptyTMD).textMessage =
        some txt →
      txt ≠ "" →
      (p.senderData.getD emptySD).chatId = none →
      resolveConv s.conversations none = none ∧
      green_webhook s (some p) now = (s, integrityErrorResp) := by
  intro s p now txt htype ht ht' hchat
  refine ⟨resolveConv_none_chatId_none _, ?_⟩
  rw [green_webhook_incoming s p now htype, handle_incoming_nullchat s p now ht ht' hchat]

/-- C10 witness: a concrete incoming event with text but no chat id fails 500
on the empty store. -/
theorem C10_null_chat_integrity_error_witness :
    resolveConv emptyStore.conversations none = none ∧
    green_webhook emptyStore
      (some (mkIncomingPayload none (some "Ana") (some "hola") (some "m1") (some 7))) 5 =
      (emptyStore, integrityErrorResp) :=
  C10_null_chat_integrity_error emptyStore
    (mkIncomingPayload none (some "Ana") (some "hola") (some "m1") (some 7)) 5 "hola"
    rfl rfl (by decide) rfl

/-! ### C6: status events never write; C2: initial-send rollback -/

theorem handle_outgoing_status_fst (s : Store) (p : Payload) :
    (handle_outgoing_status s p).1 = s := by
  unfold handle_outgoing_status
  split
  · rfl
  · split
    · rfl
    · split <;> rfl

theorem handle_outgoing_status_code (s : Store) (p : Payload) :
    (handle_outgoing_status s p).2.code = 200 := by
  unfold handle_outgoing_status
  split
  · rfl
  · split
    · rfl
    · split <;> rfl

/-- C6: for every `outgoingMessageStatus` event the store is left entirely
unchanged and the request is acknowledged with 200; an unknown `idMessage`
yields the "unknown message" acknowledgment, a known one echoes the status. -/
theorem C6_status_frame :
    ∀ (s : Store) (p : Payload) (now : Nat),
      p.typeWebhook = some "outgoingMessageStatus" →
      (green_webhook s (some p) now).1 = s ∧
      (green_webhook s (some p) now).2.code = 200 ∧
      (∀ eid, p.idMessage = some eid → eid ≠ "" →
        s.messages.find? (fun m => m.external_id == some eid) = none →
        (green_webhook s (some p) now).2 = unknownMsgResp) ∧
      (∀ eid m, p.idMessage = some eid → eid ≠ "" →
        s.messages.find? (fun m' => m'.external_id == some eid) = some m →
        (green_webhook s (some p) now).2 = ackResp p.status) := by
  intro s p now htype
  rw [green_webhook_status_eval s p now htype]
  refine ⟨handle_outgoing_status_fst s p, handle_outgoing_status_code s p, ?_, ?_⟩
  · intro eid hm he hf
    simp [handle_outgoing_status, hm, he, hf]
  · intro eid m hm he hf
    simp [handle_outgoing_status, hm, he, hf]

/-- C6 witness: a status event for an unknown message id on a one-message
store changes nothing and is acknowledged with 200. -/
theorem C6_status_frame_witness :
    (green_webhook emptyStore (some (mkStatusPayload (some "X") (some "delivered"))) 9).1 =
      emptyStore ∧
    (green_webhook emptyStore (some (mkStatusPayload (some "X") (some "delivered"))) 9).2.code =
      200 ∧
    (∀ eid, (mkStatusPayload (some "X") (some "delivered")).idMessage = some eid →
      eid ≠ "" →
      emptyStore.messages.find? (fun m => m.external_id == some eid) = none →
      (green_webhook emptyStore (some (mkStatusPayload (some "X") (some "delivered"))) 9).2 =
        unknownMsgResp) ∧
    (∀ eid m, (mkStatusPayload (some "X") (some "delivered")).idMessage = some eid →
      eid ≠ "" →
      emptyStore.messages.find? (fun m' => m'.external_id == some eid) = some m →
      (green_webhook emptyStore (some (mkStatusPayload (some "X") (some "delivered"))) 9).2 =
        ackResp (mkStatusPayload (some "X") (some "delivered")).status) :=
  C6_status_frame emptyStore (mkStatusPayload (some "X") (some "delivered")) 9 rfl

/-- C2: when creating a conversation with a non-empty initial message, any
gateway failure (HTTP error or any other exception, including missing
credentials and network errors) leaves the store unchanged — the flushed
conversation insert is rolled back — and the failure is surfaced. -/
theorem C2_initial_send_rollback :
    ∀ (s : Store) (num name init : String) (gw : GwOutcome) (now : Nat)
      (chat_id : String),
      pyStrip num ≠ "" →
      normalize_chat_id (pyStrip num) = .ok chat_id →
      resolveConv s.conversations (some chat_id) = none →
      pyStrip init ≠ "" →
      (gw = .exn ∨ ∃ code, gw = .httpError code) →
      (new_conversation_post s num name init gw now).1 = s ∧
      ((new_conversation_post s num name init gw now).2 = .sendErrorOther ∨
        ∃ code, (new_conversation_post s num name init gw now).2 = .sendErrorHttp code) := by
  intro s num name init gw now chat_id hnum hnorm hres hinit hgw
  simp only [new_conversation_post, hnorm, hres]
  rw [if_neg hnum, if_neg hinit]
  rcases hgw with rfl | ⟨code, rfl⟩
  · exact ⟨rfl, Or.inl rfl⟩
  · exact ⟨rfl, Or.inr ⟨code, rfl⟩⟩

/-- C2 witness: a concrete failed initial send on the empty store leaves no
conversation and surfaces the error. -/
theorem C2_initial_send_rollback_witness :
    (new_conversation_post emptyStore "1" "Ana" "hola" .exn 5).1 = emptyStore ∧
    ((new_conversation_post emptyStore "1" "Ana" "hola" .exn 5).2 = .sendErrorOther ∨
      ∃ code, (new_conversation_post emptyStore "1" "Ana" "hola" .exn 5).2 =
        .sendErrorHttp code) :=
  C2_initial_send_rollback emptyStore "1" "Ana" "hola" .exn 5 "1@c.us"
    (by decide) rfl rfl (by decide) (Or.inl rfl)

/-! ### C3: at most one conversation per contact number -/

theorem convContactFilter_map (convs : List Conversation) (f : Conversation → Conversation)
    (hf : ∀ c, (f c).contact_number = c.contact_number) (n : String) :
    ((convs.map f).filter fun c => c.contact_number == n).length =
      (convs.filter fun c => c.contact_number == n).length := by
  induction convs with
  | nil => rfl
  | cons c cs ih =>
    simp only [List.map_cons, List.filter_cons, hf c]
    split
    · simp [ih]
    · exact ih

theorem ConvInvL_bumpUpdated {convs : List Conversation} (cid now : Nat)
    (h : ∀ n, (convs.filter fun c => c.contact_number == n).length ≤ 1) :
    ∀ n, ((bumpUpdated convs cid now).filter fun c => c.contact_number == n).length ≤ 1 := by
  intro n
  unfold bumpUpdated
  rw [convContactFilter_map convs _ (fun c => bumpUpdated_contact c cid now) n]
  exact h n

theorem ConvInvL_insert {convs : List Conversation} {conv : Conversation}
    (h : ∀ n, (convs.filter fun c => c.contact_number == n).length ≤ 1)
    (hnew : ∀ c ∈ convs, c.contact_number ≠ conv.contact_number) :
    ∀ n, ((convs ++ [conv]).filter fun c => c.contact_number == n).length ≤ 1 := by
  intro n
  rw [List.filter_append, List.length_append]
  by_cases hn : conv.contact_number = n
  · have hzero : (convs.filter fun c => c.contact_number == n) = [] :=
      List.filter_eq_nil_iff.2 fun c hc => by
        simp only [beq_iff_eq]
        rw [← hn]
        exact hnew c hc
    rw [hzero]
    simp [List.filter_cons, hn]
  · have hone : (List.filter (fun c => c.contact_number == n) [conv]) = [] := by
      simp [List.filter_cons, hn]
    rw [hone]
    simpa using h n

theorem hnew_of_resolveConv_none {convs : List Conversation} {c : String}
    (h : resolveConv convs (some c) = none) :
    ∀ conv ∈ convs, conv.contact_number ≠ c := by
  intro conv hmem heq
  exact resolveConv_none.1 h conv hmem (by rw [heq])

theorem ConvInv_incomingStore {s : Store} (cid : Nat) (txt : String)
    (eid : Option String) (t now : Nat) (h : ConvInv s) :
    ConvInv (incomingStore s cid txt eid t now) := fun n =>
  ConvInvL_bumpUpdated cid now h n

theorem handle_incoming_no_text (s : Store) (p : Payload) (now : Nat)
    (h : ((p.messageData.getD emptyMD).textMessageData.getD emptyTMD).textMessage =
        none ∨
      ((p.messageData.getD emptyMD).textMessageData.getD emptyTMD).textMessage =
        some "") :
    handle_incoming_message s p now = (s, noTextResp) := by
  rcases h with h | h <;> simp [handle_incoming_message, h]

theorem ConvInv_handle_incoming (s : Store) (p : Payload) (now : Nat) (h : ConvInv s) :
    ConvInv (handle_incoming_message s p now).1 := by
  rcases ht : ((p.messageData.getD emptyMD).textMessageData.getD emptyTMD).textMessage
    with _ | txt
  · rw [handle_incoming_no_text s p now (Or.inl ht)]; exact h
  · by_cases htxt : txt = ""
    · rw [handle_incoming_no_text s p now (Or.inr (htxt ▸ ht))]; exact h
    · rcases hchat : (p.senderData.getD emptySD).chatId with _ | c
      · rw [handle_incoming_nullchat s p now ht htxt hchat]; exact h
      · rcases hres : resolveConv s.conversations (some c) with _ | conv
        · rw [handle_incoming_created s p now ht htxt hchat hres]
          exact ConvInv_incomingStore _ _ _ _ _
            (fun n => ConvInvL_insert h (hnew_of_resolveConv_none hres) n)
        · rw [handle_incoming_resolved s p now ht htxt (by rw [hchat]; exact hres)]
          exact ConvInv_incomingStore _ _ _ _ _ h

theorem ConvInv_outgoingDedup (s₁ : Store) (cid : Nat) (txt : String)
    (eid : Option String) (t now : Nat) (h : ConvInv s₁) :
    ConvInv (outgoingDedup s₁ cid txt eid t now).1 := by
  unfold outgoingDedup
  split
  · exact fun n => ConvInvL_bumpUpdated cid now h n
  · exact fun n => ConvInvL_bumpUpdated cid now h n

theorem ConvInv_outgoingProceed (s : Store) (c txt : String) (eid : Option String)
    (t now : Nat) (h : ConvInv s) :
    ConvInv (outgoingProceed s c txt eid t now).1 := by
  unfold outgoingProceed
  split
  · exact ConvInv_outgoingDedup _ _ _ _ _ _ h
  · rename_i hres
    refine ConvInv_outgoingDedup _ _ _ _ _ _ ?_
    intro n
    exact ConvInvL_insert h (hnew_of_resolveConv_none hres) n

theorem ConvInv_handle_outgoing (s : Store) (p : Payload) (now : Nat) (h : ConvInv s) :
    ConvInv (handle_outgoing_message s p now).1 := by
  simp only [handle_outgoing_message]
  split
  · split
    · exact h
    · exact ConvInv_outgoingProceed _ _ _ _ _ _ h
  · exact h

theorem ConvInv_handle_status (s : Store) (p : Payload) (h : ConvInv s) :
    ConvInv (handle_outgoing_status s p).1 := by
  rw [handle_outgoing_status_fst]
  exact h

theorem ConvInv_green_webhook (s : Store) (body : Option Payload) (now : Nat)
    (h : ConvInv s) : ConvInv (green_webhook s body now).1 := by
  simp only [green_webhook]
  split
  · exact ConvInv_handle_incoming _ _ _ h
  · split
    · exact ConvInv_handle_outgoing _ _ _ h
    · split
      · exact ConvInv_handle_status _ _ h
      · exact h

theorem ConvInv_new_conversation (s : Store) (num name init : String) (gw : GwOutcome)
    (now : Nat) (h : ConvInv s) :
    ConvInv (new_conversation_post s num name init gw now).1 := by
  by_cases hnum : pyStrip num = ""
  · simp only [new_conversation_post]
    rw [if_pos hnum]
    exact h
  · rcases hnorm : normalize_chat_id (pyStrip num) with e | chat_id
    · simp only [new_conversation_post, hnorm]
      rw [if_neg hnum]
      exact h
    · rcases hres : resolveConv s.conversations (some chat_id) with _ | conv
      · have hins : ∀ n,
            ((s.conversations ++ [(⟨s.nextConvId, chat_id,
              if pyStrip name = "" then none else some (pyStrip name), now, now⟩ :
                Conversation)]).filter
              fun c => c.contact_number == n).length ≤ 1 :=
          ConvInvL_insert h (hnew_of_resolveConv_none hres)
        by_cases hinit : pyStrip init = ""
        · simp only [new_conversation_post, hnorm, hres]
          rw [if_neg hnum, if_pos hinit]
          exact hins
        · rcases gw with eid | code | _
          · simp only [new_conversation_post, hnorm, hres]
            rw [if_neg hnum, if_neg hinit]
            exact hins
          · simp only [new_conversation_post, hnorm, hres]
            rw [if_neg hnum, if_neg hinit]
            exact h
          · simp only [new_conversation_post, hnorm, hres]
            rw [if_neg hnum, if_neg hinit]
            exact h
      · simp only [new_conversation_post, hnorm, hres]
        rw [if_neg hnum]
        exact h

theorem ConvInv_detail_post (s : Store) (cid : Nat) (msg : String) (gw : GwOutcome)
    (now : Nat) (h : ConvInv s) :
    ConvInv (conversation_detail_post s cid msg gw now).1 := by
  simp only [conversation_detail_post]
  split
  · exact h
  · split
    · exact h
    · split
      · exact h
      · exact h
      · exact fun n => ConvInvL_bumpUpdated _ now h n

/-- C3: every operation — webhook dispatch, conversation creation, and
message posting — preserves the at-most-one-conversation-per-contact-number
invariant, and conversation creation redirects to the existing conversation
(inserting nothing) when the normalized identifier already exists. -/
theorem C3_conversation_uniqueness :
    (∀ (s : Store) (body : Option Payload) (now : Nat),
      ConvInv s → ConvInv (green_webhook s body now).1) ∧
    (∀ (s : Store) (num name init : String) (gw : GwOutcome) (now : Nat),
      ConvInv s → ConvInv (new_conversation_post s num name init gw now).1) ∧
    (∀ (s : Store) (cid : Nat) (msg : String) (gw : GwOutcome) (now : Nat),
      ConvInv s → ConvInv (conversation_detail_post s cid msg gw now).1) ∧
    (∀ (s : Store) (num name init : String) (gw : GwOutcome) (now : Nat)
        (chat_id : String) (conv : Conversation),
      pyStrip num ≠ "" →
      normalize_chat_id (pyStrip num) = .ok chat_id →
      resolveConv s.conversations (some chat_id) = some conv →
      new_conversation_post s num name init gw now = (s, .redirected conv.id)) := by
  refine ⟨fun s body now h => ConvInv_green_webhook s body now h,
    fun s num name init gw now h => ConvInv_new_conversation s num name init gw now h,
    fun s cid msg gw now h => ConvInv_detail_post s cid msg gw now h,
    ?_⟩
  intro s num name init gw now chat_id conv hnum hnorm hres
  simp only [new_conversation_post, hnorm, hres]
  rw [if_neg hnum]

/-- C3 witness: the invariant holds after a concrete webhook delivery to the
empty store, which trivially satisfies it. -/
theorem C3_conversation_uniqueness_witness :
    ConvInv (green_webhook emptyStore
      (some (mkIncomingPayload (some "1@c.us") (some "Ana") (some "hola") (some "m1")
        (some 7))) 5).1 :=
  C3_conversation_uniqueness.1 emptyStore
    (some (mkIncomingPayload (some "1@c.us") (some "Ana") (some "hola") (some "m1")
      (some 7))) 5
    (fun n => by simp [emptyStore])

/-! ### C7: every classification/discard branch answers HTTP 200 -/

theorem outgoingDedup_snd (s₁ : Store) (cid : Nat) (txt : String) (eid : Option String)
    (t now : Nat) : (outgoingDedup s₁ cid txt eid t now).2 = storedResp := by
  unfold outgoingDedup
  split <;> rfl

theorem outgoingProceed_snd (s : Store) (c txt : String) (eid : Option String)
    (t now : Nat) : (outgoingProceed s c txt eid t now).2 = storedResp := by
  unfold outgoingProceed
  split <;> rw [outgoingDedup_snd]

theorem handle_outgoing_code (s : Store) (p : Payload) (now : Nat) :
    (handle_outgoing_message s p now).2.code = 200 := by
  simp only [handle_outgoing_message]
  split
  · split
    · rfl
    · rw [outgoingProceed_snd]
      rfl
  · rfl

theorem handle_incoming_code_or (s : Store) (p : Payload) (now : Nat) :
    (handle_incoming_message s p now).2.code = 200 ∨
      handle_incoming_message s p now = (s, integrityErrorResp) := by
  simp only [handle_incoming_message]
  split
  · exact Or.inl rfl
  · split
    · exact Or.inl rfl
    · split
      · exact Or.inl rfl
      · split
        · exact Or.inr rfl
        · exact Or.inl rfl

theorem handle_outgoing_no_data (s : Store) (p : Payload) (now : Nat)
    (h : (p.messageData.getD emptyMD).chatId = none ∨
      (p.messageData.getD emptyMD).chatId = some "" ∨
      pyOrOpt ((p.messageData.getD emptyMD).textMessageData.getD emptyTMD).textMessage
        ((p.messageData.getD emptyMD).extendedTextMessageData.getD emptyETMD).text =
        none ∨
      pyOrOpt ((p.messageData.getD emptyMD).textMessageData.getD emptyTMD).textMessage
        ((p.messageData.getD emptyMD).extendedTextMessageData.getD emptyETMD).text =
        some "") :
    handle_outgoing_message s p now = (s, noDataOutResp) := by
  rcases h with h | h | h | h
  · simp [handle_outgoing_message, h]
  · rcases hmt : pyOrOpt
        ((p.messageData.getD emptyMD).textMessageData.getD emptyTMD).textMessage
        ((p.messageData.getD emptyMD).extendedTextMessageData.getD emptyETMD).text
      with _ | mt <;> simp [handle_outgoing_message, h, hmt]
  · rcases hch : (p.messageData.getD emptyMD).chatId
      with _ | ch <;> simp [handle_outgoing_message, h, hch]
  · rcases hch : (p.messageData.getD emptyMD).chatId
      with _ | ch <;> simp [handle_outgoing_message, h, hch]

theorem handle_status_unknown (s : Store) (p : Payload) {eid : String}
    (hm : p.idMessage = some eid) (he : eid ≠ "")
    (hf : s.messages.find? (fun m => m.external_id == some eid) = none) :
    handle_outgoing_status s p = (s, unknownMsgResp) := by
  simp [handle_outgoing_status, hm, he, hf]

/-- C7: a non-JSON body, an unrecognized or absent `typeWebhook`, an incoming
event without text, an outgoing event missing chat id or text, and a status
event for an unknown message id are all acknowledged with HTTP 200; globally,
every webhook response is either a 200 or a 500 that leaves the store
unchanged. -/
theorem C7_always_acknowledge :
    (∀ (s : Store) (now : Nat), green_webhook s none now = (s, ignoredNoHandlerResp)) ∧
    (∀ (s : Store) (p : Payload) (now : Nat),
      p.typeWebhook ≠ some "incomingMessageReceived" →
      p.typeWebhook ≠ some "outgoingMessageReceived" →
      p.typeWebhook ≠ some "outgoingMessageStatus" →
      green_webhook s (some p) now = (s, ignoredNoHandlerResp)) ∧
    (∀ (s : Store) (p : Payload) (now : Nat),
      p.typeWebhook = some "incomingMessageReceived" →
      (((p.messageData.getD emptyMD).textMessageData.getD emptyTMD).textMessage =
          none ∨
        ((p.messageData.getD emptyMD).textMessageData.getD emptyTMD).textMessage =
          some "") →
      green_webhook s (some p) now = (s, noTextResp)) ∧
    (∀ (s : Store) (p : Payload) (now : Nat),
      p.typeWebhook = some "outgoingMessageReceived" →
      ((p.messageData.getD emptyMD).chatId = none ∨
        (p.messageData.getD emptyMD).chatId = some "" ∨
        pyOrOpt ((p.messageData.getD emptyMD).textMessageData.getD emptyTMD).textMessage
          ((p.messageData.getD emptyMD).extendedTextMessageData.getD emptyETMD).text =
          none ∨
        pyOrOpt ((p.messageData.getD emptyMD).textMessageData.getD emptyTMD).textMessage
          ((p.messageData.getD emptyMD).extendedTextMessageData.getD emptyETMD).text =
          some "") →
      green_webhook s (some p) now = (s, noDataOutResp)) ∧
    (∀ (s : Store) (p : Payload) (now : Nat) (eid : String),
      p.typeWebhook = some "outgoingMessageStatus" →
      p.idMessage = some eid → eid ≠ "" →
      s.messages.find? (fun m => m.external_id == some eid) = none →
      green_webhook s (some p) now = (s, unknownMsgResp)) ∧
    (∀ (s : Store) (body : Option Payload) (now : Nat),
      (green_webhook s body now).2.code = 200 ∨
        ((green_webhook s body now).2.code = 500 ∧
          (green_webhook s body now).1 = s)) := by
  refine ⟨fun s now => rfl, ?_, ?_, ?_, ?_, ?_⟩
  · intro s p now h1 h2 h3
    exact green_webhook_other s p now h1 h2 h3
  · intro s p now htype h
    rw [green_webhook_incoming s p now htype, handle_incoming_no_text s p now h]
  · intro s p now htype h
    rw [green_webhook_outgoing s p now htype, handle_outgoing_no_data s p now h]
  · intro s p now eid htype hm he hf
    rw [green_webhook_status_eval s p now htype, handle_status_unknown s p hm he hf]
  · intro s body now
    rcases body with _ | p
    · exact Or.inl rfl
    · by_cases h1 : p.typeWebhook = some "incomingMessageReceived"
      · rw [green_webhook_incoming s p now h1]
        rcases handle_incoming_code_or s p now with h | h
        · exact Or.inl h
        · exact Or.inr ⟨by rw [h]; rfl, by rw [h]⟩
      · by_cases h2 : p.typeWebhook = some "outgoingMessageReceived"
        · rw [green_webhook_outgoing s p now h2]
          exact Or.inl (handle_outgoing_code s p now)
        · by_cases h3 : p.typeWebhook = some "outgoingMessageStatus"
          · rw [green_webhook_status_eval s p now h3]
            exact Or.inl (handle_outgoing_status_code s p)
          · rw [green_webhook_other s p now h1 h2 h3]
            exact Or.inl rfl

/-- C7 witness: a concrete incoming event without text is acknowledged with
200 and discarded. -/
theorem C7_always_acknowledge_witness :
    green_webhook emptyStore
      (some (mkIncomingPayload (some "1@c.us") (some "Ana") none (some "m1") (some 7))) 5 =
      (emptyStore, noTextResp) :=
  C7_always_acknowledge.2.2.1 emptyStore
    (mkIncomingPayload (some "1@c.us") (some "Ana") none (some "m1") (some 7)) 5
    rfl (Or.inl rfl)

end Inbox
